/-
Verification development for the polling/state-reconciliation engine of the
cosmic-applet-github-status applet (src/app.rs, src/config.rs).

The Rust source is shallowly embedded:
  * `Config`, `AuthMethod` mirror src/config.rs.
  * `AppModel`, `Message`, `update`, `init` mirror the application model and
    its event handler in src/app.rs.  The COSMIC runtime handles (`core`,
    the concrete `cosmic_config::Config` handle) are abstracted: the handle is
    kept as the boolean `config_handler` (whether a persistence handle is
    attached), window ids are `Nat`, and the fresh id produced by
    `Id::unique()` in the `TogglePopup` arm is an explicit argument.
    `update` returns the successor state together with a `Bool` recording
    whether a `write_entry` (configuration persist) was attempted.
  * The external processes spawned by the fetch functions are abstracted by
    `ProcOutcome` (spawn failure, or a run with an exit-success flag and the
    captured stdout/stderr), and serde_json parsing by an oracle function
    `String → Except String Json`; everything the Rust code does after the
    spawn / parse is embedded directly.
  * Rust string operations (`lines`, `contains`, `find`, `trim`,
    `split_whitespace`, `str::parse::<u32>`) are modelled by structurally
    recursive functions on `List Char`; `u64`/`u32` values are `Nat` with
    explicit range checks / `% 2^32` where the code narrows.
-/
import Mathlib

namespace GithubStatus

/-! ## src/config.rs -/

/-- The authentication method enum of src/config.rs. -/
inductive AuthMethod where
  | GhCli
  | Pat
deriving DecidableEq, Repr

/-- The persisted configuration of src/config.rs. -/
structure Config where
  auth_method : AuthMethod
  github_pat : String
  poll_interval_secs : Nat
deriving DecidableEq, Repr

/-- The `Default` impl for `Config` in src/config.rs. -/
def Config.default : Config :=
  { auth_method := .GhCli, github_pat := "", poll_interval_secs := 60 }

/-! ## The application model (src/app.rs, struct AppModel) -/

deriving instance DecidableEq for Except

/-- The `AppModel` struct of src/app.rs, without the COSMIC runtime `core`.
The `config_handler : Option<cosmic_config::Config>` field is abstracted to
the boolean "a persistence handle is attached". -/
structure AppModel where
  popup : Option Nat
  config : Config
  config_handler : Bool
  pr_count : Option Nat
  fetch_error : Option String
  show_settings : Bool
  pat_input : String
  gh_status : Option (Except String String)
  gh_check_id : Nat
deriving DecidableEq, Repr

/-- The `Default` impl for `AppModel` in src/app.rs. -/
def AppModel.default : AppModel :=
  { popup := none
    config := Config.default
    config_handler := false
    pr_count := none
    fetch_error := none
    show_settings := false
    pat_input := ""
    gh_status := none
    gh_check_id := 0 }

/-- The `Message` enum of src/app.rs (window ids as `Nat`). -/
inductive Message where
  | togglePopup
  | popupClosed (id : Nat)
  | updateConfig (config : Config)
  | prCountFetched (result : Except String Nat)
  | openGitHub
  | openSettings
  | closeSettings
  | setAuthMethod (method : AuthMethod)
  | setPatInput (input : String)
  | savePat
  | setPollInterval (idx : Nat)
  | checkGhStatus
  | ghStatusFetched (result : Except String String)

/-- `POLL_VALUES` from src/app.rs line 16. -/
def POLL_VALUES : List Nat := [30, 60, 120, 300, 600, 1800]

/-- The `update` method of src/app.rs (lines 358-449).  `freshId` is the id
produced by `Id::unique()` in the `TogglePopup` arm.  The returned `Bool`
records whether `self.config.write_entry(handler)` was attempted; the popup
get/destroy tasks and the `xdg-open` spawn of `OpenGitHub` are view-layer
effects not tracked here. -/
def update (s : AppModel) (m : Message) (freshId : Nat) : AppModel × Bool :=
  match m with
  | .prCountFetched (.ok count) =>
      ({ s with pr_count := some count, fetch_error := none }, false)
  | .prCountFetched (.error err) =>
      ({ s with fetch_error := some err }, false)
  | .openGitHub => (s, false)
  | .updateConfig config =>
      -- "Don't overwrite PAT input while user is editing in settings"
      let s' := if ¬ s.show_settings then { s with pat_input := config.github_pat } else s
      ({ s' with config := config }, false)
  | .togglePopup =>
      match s.popup with
      | some _ => ({ s with popup := none, show_settings := false }, false)
      | none => ({ s with popup := some freshId }, false)
  | .popupClosed id =>
      if s.popup = some id then
        ({ s with popup := none, show_settings := false }, false)
      else (s, false)
  | .openSettings =>
      ({ s with show_settings := true, gh_status := none,
                gh_check_id := s.gh_check_id + 1 }, false)
  | .closeSettings => ({ s with show_settings := false }, false)
  | .setAuthMethod method =>
      ({ s with config := { s.config with auth_method := method },
                gh_status := none, gh_check_id := s.gh_check_id + 1 },
       s.config_handler)
  | .setPatInput input => ({ s with pat_input := input }, false)
  | .savePat =>
      ({ s with config := { s.config with github_pat := s.pat_input } },
       s.config_handler)
  | .setPollInterval idx =>
      match POLL_VALUES[idx]? with
      | some secs =>
          ({ s with config := { s.config with poll_interval_secs := secs } },
           s.config_handler)
      | none => (s, false)
  | .checkGhStatus =>
      ({ s with gh_status := none, gh_check_id := s.gh_check_id + 1 }, false)
  | .ghStatusFetched result => ({ s with gh_status := some result }, false)

/-- The configuration/model construction in `AppModel::init` (src/app.rs
lines 199-228): load the persisted config (falling back to the default when
there is none), coerce a zero poll interval to 60, seed `pat_input` from the
loaded PAT. -/
def init (persisted : Option Config) (has_handler : Bool) : AppModel :=
  let config0 := persisted.getD Config.default
  -- "Migrate: old configs may have poll_interval_secs = 0 (u64 default)."
  let config :=
    if config0.poll_interval_secs = 0 then { config0 with poll_interval_secs := 60 }
    else config0
  { AppModel.default with
      config := config
      config_handler := has_handler
      pat_input := config.github_pat }

/-! ## Rust string operations, modelled structurally on `List Char`

These model the `str` methods the fetch code uses: `starts_with` (as the
building block), `contains`, `find`+slice (leftmost occurrence),
`lines`, `trim`, `split_whitespace().next()`, and `parse::<u32>()`.
Rust operates on UTF-8 bytes; at the character level the models agree on
every input the code can see (whitespace is taken to be the ASCII whitespace
characters recognised by `Char.isWhitespace`). -/

/-- `s` starts with the pattern `pat` (Rust `str::starts_with`). -/
def startsWithL : List Char → List Char → Bool
  | _, [] => true
  | [], _ :: _ => false
  | c :: cs, p :: ps => c = p && startsWithL cs ps

/-- `s` contains the pattern `pat` as a substring (Rust `str::contains`). -/
def containsL : List Char → List Char → Bool
  | [], pat => pat.isEmpty
  | c :: cs, pat => startsWithL (c :: cs) pat || containsL cs pat

/-- The suffix of `s` after the leftmost occurrence of `pat`, if any: this is
Rust `s.find(pat)` followed by the slice `&s[pos + pat.len()..]`. -/
def afterFirstL (pat : List Char) : List Char → Option (List Char)
  | [] => if pat.isEmpty then some [] else none
  | c :: cs =>
      if startsWithL (c :: cs) pat then some ((c :: cs).drop pat.length)
      else afterFirstL pat cs

/-- Split at every occurrence of the character `sep`. -/
def splitCharL (sep : Char) : List Char → List (List Char)
  | [] => [[]]
  | c :: cs =>
      if c = sep then [] :: splitCharL sep cs
      else
        match splitCharL sep cs with
        | [] => [[c]]
        | l :: ls => (c :: l) :: ls

/-- Drop one trailing `'\r'` (the per-line step of Rust `str::lines`). -/
def stripCR (l : List Char) : List Char :=
  if l.getLast? = some '\r' then l.dropLast else l

/-- Rust `str::lines`: split on `'\n'`, drop a single trailing empty line
(so a trailing newline does not produce one), strip a trailing `'\r'` from
each line. -/
def rustLines (s : List Char) : List (List Char) :=
  let parts := splitCharL '\n' s
  let parts := if parts.getLast? = some [] then parts.dropLast else parts
  parts.map stripCR

/-- Rust `str::trim`: drop whitespace from both ends. -/
def trimL (s : List Char) : List Char :=
  ((s.dropWhile Char.isWhitespace).reverse.dropWhile Char.isWhitespace).reverse

/-- Rust `str::trim` on `String`. -/
def rustTrim (s : String) : String := String.mk (trimL s.data)

/-- Rust `s.split_whitespace().next()`: the first maximal run of
non-whitespace characters, if any. -/
def firstTokenL : List Char → Option (List Char)
  | [] => none
  | c :: cs =>
      if c.isWhitespace then firstTokenL cs
      else some ((c :: cs).takeWhile (fun d => !d.isWhitespace))

/-- The accumulation loop of Rust `u32::from_str` on the digit characters:
each character must be a decimal digit (else `InvalidDigit`), and the running
value may never exceed `u32::MAX` (else `PosOverflow`).  The error strings
are the `Display` texts of `ParseIntError` that `e.to_string()` produces. -/
def parseDigitsU32 : List Char → Nat → Except String Nat
  | [], acc => .ok acc
  | d :: ds, acc =>
      if d.isDigit then
        let acc' := acc * 10 + (d.toNat - 48)
        if acc' ≤ 4294967295 then parseDigitsU32 ds acc'
        else .error "number too large to fit in target type"
      else .error "invalid digit found in string"

/-- Rust `str::parse::<u32>()` with `ParseIntError` rendered via
`e.to_string()`: empty input is `Empty`, a lone sign is `InvalidDigit`, an
optional leading `'+'` is allowed (for an unsigned target a `'-'` is just an
invalid digit), then the digits are accumulated with an overflow check. -/
def parse_u32 (s : String) : Except String Nat :=
  match s.data with
  | [] => .error "cannot parse integer from empty string"
  | ['+'] => .error "invalid digit found in string"
  | ['-'] => .error "invalid digit found in string"
  | '+' :: cs => parseDigitsU32 cs 0
  | cs => parseDigitsU32 cs 0

/-! ## External-process and JSON oracles -/

/-- The outcome of spawning an external process (`tokio::process::Command`
with `.output()`): either the spawn itself failed with a native error
rendered as a string, or the process ran to completion with an exit-success
flag and captured stdout/stderr (already decoded, as by
`String::from_utf8_lossy`). -/
inductive ProcOutcome where
  | spawnErr (e : String)
  | ran (success : Bool) (stdout stderr : String)

/-- A JSON document as produced by `serde_json::from_str`.  Numbers are
modelled as the unsigned integers (`u64`-range checked in `as_u64`): the API
contract in play (`total_count`) only ever carries such numbers, and any
number `serde_json` cannot represent as an integer yields `as_u64 = none`
just as the model's range check does. -/
inductive Json where
  | null
  | bool (b : Bool)
  | num (n : Nat)
  | str (s : String)
  | arr (elems : List Json)
  | obj (fields : List (String × Json))

/-- `serde_json::Value` indexing `value["key"]`: field lookup on an object,
`Null` on everything else. -/
def Json.index (j : Json) (key : String) : Json :=
  match j with
  | .obj fields => (fields.lookup key).getD .null
  | _ => .null

/-- `serde_json::Value::as_u64`: an unsigned integer in `u64` range. -/
def Json.as_u64 : Json → Option Nat
  | .num n => if n ≤ 18446744073709551615 then some n else none
  | _ => none

/-- `serde_json::Value::as_str`. -/
def Json.as_str : Json → Option String
  | .str s => some s
  | _ => none

/-! ## The fetch functions (src/app.rs lines 18-113) -/

/-- `fetch_via_gh_cli` (src/app.rs lines 30-51), as a function of the
outcome of spawning `gh api search/issues ... --jq .total_count`. -/
def fetch_via_gh_cli (po : ProcOutcome) : Except String Nat :=
  match po with
  | .spawnErr e => .error ("gh not found: " ++ e)
  | .ran success stdout stderr =>
      if ¬ success then .error (rustTrim stderr)
      else parse_u32 (rustTrim stdout)

/-- `fetch_via_pat` (src/app.rs lines 53-82), as a function of the outcome of
spawning `curl` and of the serde_json parse oracle applied to its stdout.
The `n as u32` narrowing on line 76 is `% 2^32`. -/
def fetch_via_pat (po : ProcOutcome) (parse : String → Except String Json) :
    Except String Nat :=
  match po with
  | .spawnErr e => .error ("curl not found: " ++ e)
  | .ran success stdout stderr =>
      if ¬ success then .error ("Request failed: " ++ stderr)
      else
        match parse stdout with
        | .error e => .error ("JSON parse error: " ++ e)
        | .ok value =>
            match (value.index "total_count").as_u64 with
            | some n => .ok (n % 4294967296)
            | none =>
                match (value.index "message").as_str with
                | some m => .error ("API error: " ++ m)
                | none => .error "total_count not found in response"

/-- The external-call environment of `fetch_pr_count`: the process outcomes
the two strategies would observe, and the serde parse oracle. -/
structure FetchEnv where
  gh : ProcOutcome
  curl : ProcOutcome
  parse : String → Except String Json

/-- `fetch_pr_count` (src/app.rs lines 18-28).  The second component counts
the external process spawn attempts performed: the empty-PAT check returns
before any `Command` is constructed. -/
def fetch_pr_count (auth_method : AuthMethod) (pat : String) (env : FetchEnv) :
    Except String Nat × Nat :=
  match auth_method with
  | .GhCli => (fetch_via_gh_cli env.gh, 1)
  | .Pat =>
      if pat.isEmpty then
        (.error "No PAT configured. Open Settings to add one.", 0)
      else (fetch_via_pat env.curl env.parse, 1)

/-! ## The `gh auth status` probe (src/app.rs lines 84-113) -/

/-- The body of the `for line in text.lines()` loop of `check_gh_status`:
the first line that contains both `"Logged in to"` and `"account"` *and* in
which `find("account ")` succeeds yields the first whitespace-delimited
token after that occurrence (`"unknown"` when no token follows); other lines
are skipped. -/
def scanLines : List (List Char) → Option String
  | [] => none
  | line :: rest =>
      if containsL line "Logged in to".data && containsL line "account".data then
        match afterFirstL "account ".data line with
        | some r => some (((firstTokenL r).map String.mk).getD "unknown")
        | none => scanLines rest
      else scanLines rest

/-- `check_gh_status` (src/app.rs lines 84-113), as a function of the outcome
of spawning `gh auth status`. -/
def check_gh_status (po : ProcOutcome) : Except String String :=
  match po with
  | .spawnErr _ => .error "gh not found or not executable"
  | .ran success stdout stderr =>
      let text := stdout ++ stderr
      match scanLines (rustLines text.data) with
      | some username => .ok username
      | none =>
          if ¬ success then .error "Not logged in. Run: gh auth login"
          else .ok "Connected"

/-! ## Replay of fetch outcomes through the update loop (for C1) -/

/-- One delivery of a fetch outcome to the event handler
(`Message::PRCountFetched`); the fresh-id argument is irrelevant here. -/
def prStep (s : AppModel) (o : Except String Nat) : AppModel :=
  (update s (.prCountFetched o) 0).fst

/-- Replaying a sequence of fetch outcomes through `update`, starting from
the default model (no count, no error). -/
def replay (outcomes : List (Except String Nat)) : AppModel :=
  outcomes.foldl prStep AppModel.default

/-- The count carried by an `Ok` outcome. -/
def okValue : Except String Nat → Option Nat
  | .ok n => some n
  | .error _ => none

/-- Specification-side reading of a sequence of outcomes: the error of the
most recent outcome when that outcome is an `Err`, otherwise none. -/
def lastErr (l : List (Except String Nat)) : Option String :=
  match l.getLast? with
  | some (.error m) => some m
  | _ => none

/-- Specification-side reading of a sequence of outcomes: the count of the
most recent `Ok`, if any `Ok` has occurred. -/
def lastOk (l : List (Except String Nat)) : Option Nat :=
  (l.filterMap okValue).getLast?

lemma replay_append_singleton (xs : List (Except String Nat)) (o : Except String Nat) :
    replay (xs ++ [o]) = prStep (replay xs) o := by
  simp [replay, List.foldl_append]

lemma replay_characterization (l : List (Except String Nat)) :
    (replay l).fetch_error = lastErr l ∧ (replay l).pr_count = lastOk l := by
  induction l using List.reverseRecOn with
  | nil => exact ⟨rfl, rfl⟩
  | append_singleton xs o ih =>
    obtain ⟨he, hc⟩ := ih
    cases o with
    | ok n =>
      refine ⟨?_, ?_⟩
      · rw [replay_append_singleton]
        simp [prStep, update, lastErr, List.getLast?_concat]
      · rw [replay_append_singleton]
        simp [prStep, update, lastOk, List.filterMap_append, okValue,
          List.getLast?_concat]
    | error m =>
      refine ⟨?_, ?_⟩
      · rw [replay_append_singleton]
        simp [prStep, update, lastErr, List.getLast?_concat]
      · rw [replay_append_singleton]
        simpa [prStep, update, lastOk, List.filterMap_append, okValue] using hc

/-! ## Claim theorems -/

/-- C1: replaying any sequence of fetch outcomes through `update` (as
`Message::PRCountFetched`) yields a state whose `fetch_error` is exactly the
message of the most recent outcome when that outcome is an `Err` (and `none`
otherwise, so it is `Some` iff the most recent outcome was an `Err`), and
whose `pr_count` is `some` of the count of the most recent `Ok` outcome
seen so far, or `none` when no `Ok` has been received; in particular an
`Err` outcome leaves `pr_count` unchanged and an `Ok` outcome clears
`fetch_error`. -/
theorem claim_C1_reconciler_replay :
    (∀ l : List (Except String Nat),
        (replay l).fetch_error = lastErr l ∧ (replay l).pr_count = lastOk l)
    ∧ (∀ (s : AppModel) (m : String) (f : Nat),
        (update s (.prCountFetched (.error m)) f).fst.pr_count = s.pr_count)
    ∧ (∀ (s : AppModel) (n : Nat) (f : Nat),
        (update s (.prCountFetched (.ok n)) f).fst.fetch_error = none) :=
  ⟨replay_characterization, fun _ _ _ => rfl, fun _ _ _ => rfl⟩

/-- C2: `init` coerces a persisted `poll_interval_secs` of 0 to 60 and
leaves every non-zero persisted interval (and the rest of the
configuration) unchanged. -/
theorem claim_C2_init_interval_migration (c : Config) (hh : Bool) :
    (c.poll_interval_secs = 0 →
        (init (some c) hh).config = { c with poll_interval_secs := 60 })
    ∧ (c.poll_interval_secs ≠ 0 → (init (some c) hh).config = c) := by
  constructor
  · intro h0
    simp [init, h0]
  · intro hne
    simp [init, hne]

/-- Witness for C2 at concrete configurations: a persisted zero interval
becomes 60, a persisted 30 stays 30. -/
theorem claim_C2_init_interval_migration_witness :
    (init (some { auth_method := .GhCli, github_pat := "x", poll_interval_secs := 0 })
        true).config =
      { auth_method := .GhCli, github_pat := "x", poll_interval_secs := 60 }
    ∧ (init (some { auth_method := .Pat, github_pat := "y", poll_interval_secs := 30 })
        true).config =
      { auth_method := .Pat, github_pat := "y", poll_interval_secs := 30 } :=
  ⟨(claim_C2_init_interval_migration _ true).1 rfl,
   (claim_C2_init_interval_migration _ true).2 (by decide)⟩

/-- C3 counterexample: with the PAT method and an empty credential the code
fails fast, but with the message "No PAT configured. Open Settings to add
one.", not the message "No credential configured. Configure one in
settings." asserted by the claim. -/
theorem claim_C3_counterexample :
    (fetch_pr_count .Pat ""
        ⟨.ran true "" "", .ran true "" "", fun _ => .ok .null⟩).fst ≠
      .error "No credential configured. Configure one in settings." := by
  decide

/-- C3 (amended): for every external environment, a PAT fetch with an empty
credential returns `Err("No PAT configured. Open Settings to add one.")` and
performs no external process spawn. -/
theorem claim_C3_empty_pat_fails_fast (env : FetchEnv) :
    fetch_pr_count .Pat "" env =
      (.error "No PAT configured. Open Settings to add one.", 0) := rfl

/-- C5 counterexample: a response whose `total_count` is the JSON number
`2^32` parses fine, yet the fetch does not return `Ok` of that count — the
`as u32` narrowing yields `Ok 0`. -/
theorem claim_C5_counterexample :
    fetch_via_pat (.ran true "body" "")
        (fun _ => .ok (Json.obj [("total_count", Json.num 4294967296)])) ≠
      .ok 4294967296 := by
  decide

/-- C5 (amended): for a parsed TokenBased response body, a `u64`-range
`total_count` below `2^32` yields `Ok` of that count (above `2^32` the count
is truncated, see the `u32`-narrowing theorem); with no `u64` `total_count`
but a string `message` field `m` the result is `Err("API error: " ++ m)`;
with neither, `Err("total_count not found in response")`; and an unparseable
body yields `Err("JSON parse error: " ++ details)`. -/
theorem claim_C5_pat_response_handling :
    (∀ (j : Json) (n : Nat) (body : String),
        j.index "total_count" = .num n → n < 4294967296 →
        fetch_via_pat (.ran true body "") (fun _ => .ok j) = .ok n)
    ∧ (∀ (j : Json) (m : String) (body : String),
        (j.index "total_count").as_u64 = none →
        (j.index "message").as_str = some m →
        fetch_via_pat (.ran true body "") (fun _ => .ok j) =
          .error ("API error: " ++ m))
    ∧ (∀ (j : Json) (body : String),
        (j.index "total_count").as_u64 = none →
        (j.index "message").as_str = none →
        fetch_via_pat (.ran true body "") (fun _ => .ok j) =
          .error "total_count not found in response")
    ∧ (∀ (e body : String),
        fetch_via_pat (.ran true body "") (fun _ => .error e) =
          .error ("JSON parse error: " ++ e)) := by
  refine ⟨?_, ?_, ?_, ?_⟩
  · intro j n body hj hn
    have hle : n ≤ 18446744073709551615 := by omega
    simp [fetch_via_pat, hj, Json.as_u64, hle, Nat.mod_eq_of_lt hn]
  · intro j m body h1 h2
    simp [fetch_via_pat, h1, h2]
  · intro j body h1 h2
    simp [fetch_via_pat, h1, h2]
  · intro e body
    simp [fetch_via_pat]

/-- Witness for C5 at concrete responses: `{"total_count": 3}` yields
`Ok 3` and `{"message": "Bad credentials"}` yields
`Err("API error: Bad credentials")`. -/
theorem claim_C5_pat_response_handling_witness :
    fetch_via_pat (.ran true "b" "")
        (fun _ => .ok (Json.obj [("total_count", Json.num 3)])) = .ok 3
    ∧ fetch_via_pat (.ran true "b" "")
        (fun _ => .ok (Json.obj [("message", Json.str "Bad credentials")])) =
      .error "API error: Bad credentials" :=
  ⟨claim_C5_pat_response_handling.1 _ 3 "b" rfl (by norm_num),
   claim_C5_pat_response_handling.2.1 _ "Bad credentials" "b" rfl rfl⟩

/-- C6: a `SetPollInterval(idx)` with `idx` a valid index into
`POLL_VALUES = [30, 60, 120, 300, 600, 1800]` sets `poll_interval_secs` to
the `idx`-th value and requests a persist (through the attached config
handler); an out-of-range `idx` leaves the entire model unchanged and
requests no persist; consequently any interval change this message produces
lands in `POLL_VALUES`. -/
theorem claim_C6_set_poll_interval :
    (∀ (s : AppModel) (idx v f : Nat),
        POLL_VALUES[idx]? = some v → s.config_handler = true →
        update s (.setPollInterval idx) f =
          ({ s with config := { s.config with poll_interval_secs := v } }, true))
    ∧ (∀ (s : AppModel) (idx f : Nat),
        POLL_VALUES.length ≤ idx →
        update s (.setPollInterval idx) f = (s, false))
    ∧ (∀ (s : AppModel) (idx f : Nat),
        (update s (.setPollInterval idx) f).fst.config.poll_interval_secs =
            s.config.poll_interval_secs
        ∨ (update s (.setPollInterval idx) f).fst.config.poll_interval_secs ∈
            POLL_VALUES) := by
  refine ⟨?_, ?_, ?_⟩
  · intro s idx v f hv hh
    simp [update, hv, hh]
  · intro s idx f hlen
    simp [update, List.getElem?_eq_none hlen]
  · intro s idx f
    cases hv : POLL_VALUES[idx]? with
    | none => left; simp [update, hv]
    | some v =>
      right
      have hm : v ∈ POLL_VALUES := List.getElem?_mem hv
      simpa [update, hv] using hm

/-- Witness for C6 at index 2 (120 seconds) on the default model with a
config handler attached. -/
theorem claim_C6_set_poll_interval_witness :
    update { AppModel.default with config_handler := true } (.setPollInterval 2) 0 =
      ({ AppModel.default with
          config_handler := true
          config := { Config.default with poll_interval_secs := 120 } }, true) :=
  claim_C6_set_poll_interval.1 _ 2 120 0 (by decide) rfl

/-- C7: each of `OpenSettings`, `SetAuthMethod` and `CheckGhStatus`
increments `gh_check_id` by exactly one and resets `gh_status` to `none`,
and no message ever decreases `gh_check_id`. -/
theorem claim_C7_check_epoch :
    (∀ (s : AppModel) (f : Nat),
        (update s .openSettings f).fst.gh_check_id = s.gh_check_id + 1
        ∧ (update s .openSettings f).fst.gh_status = none)
    ∧ (∀ (s : AppModel) (method : AuthMethod) (f : Nat),
        (update s (.setAuthMethod method) f).fst.gh_check_id = s.gh_check_id + 1
        ∧ (update s (.setAuthMethod method) f).fst.gh_status = none)
    ∧ (∀ (s : AppModel) (f : Nat),
        (update s .checkGhStatus f).fst.gh_check_id = s.gh_check_id + 1
        ∧ (update s .checkGhStatus f).fst.gh_status = none)
    ∧ (∀ (s : AppModel) (m : Message) (f : Nat),
        s.gh_check_id ≤ (update s m f).fst.gh_check_id) := by
  refine ⟨fun s f => ⟨rfl, rfl⟩, fun s method f => ⟨rfl, rfl⟩,
    fun s f => ⟨rfl, rfl⟩, ?_⟩
  intro s m f
  cases m
  case prCountFetched r => cases r <;> simp [update]
  case togglePopup => cases hp : s.popup <;> simp [update, hp]
  case popupClosed id => by_cases h : s.popup = some id <;> simp [update, h]
  case setPollInterval idx => cases hv : POLL_VALUES[idx]? <;> simp [update, hv]
  case updateConfig c => cases hss : s.show_settings <;> simp [update, hss]
  all_goals simp [update]

/-- C8: `UpdateConfig(c)` replaces the stored configuration wholesale,
adopts `c.github_pat` into the transient `pat_input` buffer exactly when the
settings view is closed, and changes nothing else (and requests no
persist). -/
theorem claim_C8_update_config_frame (s : AppModel) (c : Config) (f : Nat) :
    update s (.updateConfig c) f =
      ({ s with
          config := c
          pat_input := if s.show_settings then s.pat_input else c.github_pat },
       false) := by
  obtain ⟨p, cf, ch, pc, fe, ss, pi, gs, gc⟩ := s
  by_cases h : ss <;> simp [update, h]

/-- C9: for an agent (`gh`) fetch: a spawn failure yields
`Err("gh not found: " ++ native error)`; a non-zero exit yields `Err` of the
trimmed stderr; a successful exit whose stdout does not trim-parse as a
`u32` yields `Err` of the parse error text; and one whose stdout trim-parses
as `n` yields `Ok n`. -/
theorem claim_C9_gh_cli_branches :
    (∀ e : String, fetch_via_gh_cli (.spawnErr e) = .error ("gh not found: " ++ e))
    ∧ (∀ stdout stderr : String,
        fetch_via_gh_cli (.ran false stdout stderr) = .error (rustTrim stderr))
    ∧ (∀ (stdout stderr msg : String),
        parse_u32 (rustTrim stdout) = .error msg →
        fetch_via_gh_cli (.ran true stdout stderr) = .error msg)
    ∧ (∀ (stdout stderr : String) (n : Nat),
        parse_u32 (rustTrim stdout) = .ok n →
        fetch_via_gh_cli (.ran true stdout stderr) = .ok n) := by
  refine ⟨fun e => rfl, fun stdout stderr => rfl, ?_, ?_⟩
  · intro stdout stderr msg hp
    simpa [fetch_via_gh_cli] using hp
  · intro stdout stderr n hp
    simpa [fetch_via_gh_cli] using hp

/-- Witness for C9: stdout `" 7 "` trim-parses and yields `Ok 7`; stdout
`"abc"` does not and yields the parse error text. -/
theorem claim_C9_gh_cli_branches_witness :
    fetch_via_gh_cli (.ran true " 7 " "") = .ok 7
    ∧ fetch_via_gh_cli (.ran true "abc" "") =
        .error "invalid digit found in string" :=
  ⟨claim_C9_gh_cli_branches.2.2.2 " 7 " "" 7 (by decide),
   claim_C9_gh_cli_branches.2.2.1 "abc" "" _ (by decide)⟩

/-- C10: a parsed TokenBased response whose `total_count` is a `u64`-range
JSON number `n ≥ 2^32` yields `Ok (n % 2^32)`: the `n as u32` cast on
src/app.rs line 76 truncates. -/
theorem claim_C10_u32_truncation (j : Json) (n : Nat) (body : String)
    (hj : j.index "total_count" = .num n) (hlo : 4294967296 ≤ n)
    (hhi : n < 18446744073709551616) :
    fetch_via_pat (.ran true body "") (fun _ => .ok j) = .ok (n % 4294967296) := by
  have hle : n ≤ 18446744073709551615 := by omega
  simp [fetch_via_pat, hj, Json.as_u64, hle]

/-- Witness for C10 at `total_count = 2^32 + 7`: the fetch reports 7. -/
theorem claim_C10_u32_truncation_witness :
    fetch_via_pat (.ran true "b" "")
        (fun _ => .ok (Json.obj [("total_count", Json.num 4294967303)])) =
      .ok 7 :=
  claim_C10_u32_truncation _ 4294967303 "b" rfl (by norm_num) (by norm_num)

/-! ## Substring lemmas for the auth-status probe (C4) -/

lemma startsWithL_append (s a b : List Char)
    (h : startsWithL s (a ++ b) = true) : startsWithL s a = true := by
  induction a generalizing s with
  | nil => cases s <;> simp [startsWithL]
  | cons p ps ih =>
    cases s with
    | nil => simp [startsWithL] at h
    | cons c cs =>
      simp [startsWithL] at h ⊢
      exact ⟨h.1, ih cs h.2⟩

lemma containsL_append (s a b : List Char)
    (h : containsL s (a ++ b) = true) : containsL s a = true := by
  induction s with
  | nil =>
    simp [containsL] at h ⊢
    simp [h.1]
  | cons c cs ih =>
    simp only [containsL, Bool.or_eq_true] at h ⊢
    cases h with
    | inl h1 => exact Or.inl (startsWithL_append _ _ _ h1)
    | inr h2 => exact Or.inr (ih h2)

lemma afterFirstL_eq_none (pat s : List Char)
    (h : containsL s pat = false) : afterFirstL pat s = none := by
  induction s with
  | nil =>
    simp only [containsL] at h
    simp [afterFirstL, h]
  | cons c cs ih =>
    simp only [containsL, Bool.or_eq_false_iff] at h
    simp [afterFirstL, h.1, ih h.2]

lemma afterFirstL_isSome (pat s : List Char)
    (h : containsL s pat = true) : ∃ r, afterFirstL pat s = some r := by
  induction s with
  | nil =>
    simp only [containsL] at h
    exact ⟨[], by simp [afterFirstL, h]⟩
  | cons c cs ih =>
    rw [containsL, Bool.or_eq_true] at h
    by_cases h1 : startsWithL (c :: cs) pat = true
    · exact ⟨List.drop pat.length (c :: cs), by simp [afterFirstL, h1]⟩
    · obtain ⟨r, hr⟩ := ih (h.resolve_left h1)
      exact ⟨r, by simp [afterFirstL, h1, hr]⟩

lemma account_space_split : "account ".data = "account".data ++ [' '] := by decide

/-- Specification-side line condition (stated from the claim): the line
contains both the `"Logged in to"` marker and the account marker with its
trailing space, `"account "`. -/
def chkLine (l : List Char) : Bool :=
  containsL l "Logged in to".data && containsL l "account ".data

/-- Specification-side username extraction (stated from the claim): the
first whitespace-delimited token after the first occurrence of
`"account "`, or `"unknown"` when no token follows. -/
def extractUser (l : List Char) : String :=
  ((firstTokenL ((afterFirstL "account ".data l).getD [])).map String.mk).getD
    "unknown"

/-- The probe's line scan is exactly: find the first line satisfying
`chkLine` and extract the username from it. -/
lemma scanLines_eq_find (ls : List (List Char)) :
    scanLines ls = (ls.find? chkLine).map extractUser := by
  induction ls with
  | nil => rfl
  | cons line rest ih =>
    by_cases hchk : chkLine line = true
    · have hpair : containsL line "Logged in to".data = true
          ∧ containsL line "account ".data = true := by
        simpa [chkLine] using hchk
      have hlg := hpair.1
      have hsp := hpair.2
      have hac : containsL line "account".data = true :=
        containsL_append _ _ _ (account_space_split ▸ hsp)
      obtain ⟨r, hr⟩ := afterFirstL_isSome "account ".data line hsp
      rw [List.find?_cons_of_pos _ hchk]
      simp [scanLines, hlg, hac, hr, extractUser]
    · rw [List.find?_cons_of_neg _ (by simpa using hchk), ← ih]
      by_cases hcond :
          (containsL line "Logged in to".data && containsL line "account".data) = true
      · have hcondp : containsL line "Logged in to".data = true
            ∧ containsL line "account".data = true := by
          simpa using hcond
        have hsp : containsL line "account ".data = false := by
          cases hx : containsL line "account ".data
          · rfl
          · exact absurd (by simp [chkLine, hcondp.1, hx]) hchk
        have hafter : afterFirstL "account ".data line = none :=
          afterFirstL_eq_none _ _ hsp
        simp [scanLines, hcond, hafter]
      · simp [scanLines, hcond]

/-- C4 counterexample: a probe with no "Logged in to" line and an
unsuccessful exit resolves with the message "Not logged in. Run: gh auth
login", not the message "Not logged in. Run the agent's login command."
asserted by the claim. -/
theorem claim_C4_counterexample :
    (rustLines ("" ++ "" : String).data).find? chkLine = none
    ∧ check_gh_status (.ran false "" "") ≠
        .error "Not logged in. Run the agent's login command." := by
  decide

/-- C4 (amended): over the combined stdout+stderr text of the probe, if some
line contains both `"Logged in to"` and `"account "` (the account marker
with its trailing space), the probe resolves `Ok u` where `u` is the first
whitespace-delimited token after the first `"account "` of the first such
line (`"unknown"` if no token follows); if no such line exists the probe
resolves `Err("Not logged in. Run: gh auth login")` on an unsuccessful exit
and `Ok "Connected"` on a successful one.  In particular the line
`"Logged in to github.com account octocat (oauth_token)"` resolves
`Ok "octocat"`. -/
theorem claim_C4_gh_status_probe :
    (∀ (success : Bool) (stdout stderr : String) (line : List Char),
        (rustLines (stdout ++ stderr).data).find? chkLine = some line →
        check_gh_status (.ran success stdout stderr) = .ok (extractUser line))
    ∧ (∀ stdout stderr : String,
        (rustLines (stdout ++ stderr).data).find? chkLine = none →
        check_gh_status (.ran false stdout stderr) =
          .error "Not logged in. Run: gh auth login")
    ∧ (∀ stdout stderr : String,
        (rustLines (stdout ++ stderr).data).find? chkLine = none →
        check_gh_status (.ran true stdout stderr) = .ok "Connected")
    ∧ check_gh_status
        (.ran true "Logged in to github.com account octocat (oauth_token)\n" "") =
      .ok "octocat" := by
  refine ⟨?_, ?_, ?_, by decide⟩
  · intro success stdout stderr line hf
    rw [String.data_append] at hf
    simp [check_gh_status, scanLines_eq_find, hf]
  · intro stdout stderr hf
    rw [String.data_append] at hf
    simp [check_gh_status, scanLines_eq_find, hf]
  · intro stdout stderr hf
    rw [String.data_append] at hf
    simp [check_gh_status, scanLines_eq_find, hf]

/-- Witness for C4: stderr text without any "Logged in to" line and a
failing exit resolves to the not-logged-in error. -/
theorem claim_C4_gh_status_probe_witness :
    check_gh_status (.ran false "gh: you are not logged in\n" "") =
      .error "Not logged in. Run: gh auth login" :=
  claim_C4_gh_status_probe.2.1 "gh: you are not logged in\n" "" (by decide)

end GithubStatus
